import Mathlib

/-!
Verification of the access-control and note-mutation gating logic of the
keep-mcp server (a REST / MCP shim over a cloud notes service).

The embedding models the handlers of `src/server/rest_api.py` and the health
route of `src/server/standalone_http.py`.  The session state (the in-memory
cache held by the external client library) is modelled explicitly as a
`KeepState`; the session's free-text matcher is an abstract parameter, since
the matching itself lives in the external library.  The helper module
`src/server/keep_api.py` (providing `get_client`, `serialize_note` and
`can_modify_note`) is not part of the provided sources; those two pure
helpers are modelled from the specification, as marked on their definitions.
-/

namespace KeepMcp

/-- A label of the notes account: a named tag, identified by its name. -/
structure Label where
  name : String
deriving DecidableEq, Repr

/-- A note in the session's in-memory cache, with the attributes the spec's
data model lists: identifier, optional title, optional text, pinned flag,
optional color, archived flag, trashed flag, and its label set. -/
structure Note where
  id : String
  title : Option String
  text : Option String
  pinned : Bool
  color : Option String
  archived : Bool
  trashed : Bool
  labels : List Label
deriving DecidableEq, Repr

/-- A label entry of a serialized note record (the per-label dict holding the
label's name). -/
structure LabelRecord where
  name : String
deriving DecidableEq, Repr

/-- The transport-safe record produced for a note, mirroring the
`NoteResponse` pydantic model of `rest_api.py` (id, title, text, pinned,
color, labels). -/
structure NoteRecord where
  id : String
  title : Option String
  text : Option String
  pinned : Bool
  color : Option String
  labels : List LabelRecord
deriving DecidableEq, Repr

/-- The session state: the in-memory cache of notes and account labels, plus
a count of synchronize calls issued (to observe when `keep.sync()` runs). -/
structure KeepState where
  notes : List Note
  accountLabels : List Label
  syncCount : Nat
deriving DecidableEq, Repr

/-- Modelled from the spec: `can_modify_note` of the missing
`src/server/keep_api.py` module (spec §4.1 Modification Gate): true iff the
Operator Override flag (`UNSAFE_MODE`) is enabled or the note's label set
contains a label whose name is the reserved ownership marker `keep-mcp`. -/
def can_modify_note (operator_override : Bool) (note : Note) : Bool :=
  operator_override || note.labels.any (fun l => l.name = "keep-mcp")

/-- Modelled from the spec: `serialize_note` of the missing
`src/server/keep_api.py` module (spec §4.2 Note Serializer): a record with
exactly the fields identifier, title, text, pinned, color, and labels (an
ordered list of name records for the note's label set). -/
def serialize_note (note : Note) : NoteRecord :=
  { id := note.id
    title := note.title
    text := note.text
    pinned := note.pinned
    color := note.color
    labels := note.labels.map (fun l => { name := l.name }) }

/-- A Python exception as the handlers see it: either a FastAPI
`HTTPException` carrying a status code and detail, or any other exception
carrying its message. -/
inductive PyExc where
  | httpException (status_code : Nat) (detail : String)
  | other (msg : String)
deriving DecidableEq, Repr

/-- The `try ... except HTTPException: raise  except Exception as e:
raise HTTPException(500, str(e))` boundary wrapped around every handler body
in `rest_api.py`: HTTP exceptions pass through verbatim, anything else is
recast as a 500. -/
def run_handler {α : Type} (body : Except PyExc α) : Except PyExc α :=
  match body with
  | .ok a => .ok a
  | .error (.httpException s d) => .error (.httpException s d)
  | .error (.other m) => .error (.httpException 500 m)

/-- `keep.get(note_id)`: look the note up in the session cache by id. -/
def keep_get (s : KeepState) (note_id : String) : Option Note :=
  s.notes.find? (fun n => n.id = note_id)

/-- `keep.findLabel(name)`: look a label up in the account by name. -/
def find_label (s : KeepState) (name : String) : Option Label :=
  s.accountLabels.find? (fun l => l.name = name)

/-- In-place mutation of the cached note with the given id (the Python code
mutates the object `keep.get` returned, which is the cached object). -/
def set_note (s : KeepState) (note_id : String) (n : Note) : KeepState :=
  { s with notes := s.notes.map (fun m => if m.id = note_id then n else m) }

/-- `keep.sync()`: push local mutations to the remote account. -/
def do_sync (s : KeepState) : KeepState :=
  { s with syncCount := s.syncCount + 1 }

/-- A JSON field of a request body: absent, explicit null, or a string. -/
inductive JsonField where
  | absent
  | null
  | str (s : String)
deriving DecidableEq, Repr

/-- Pydantic's handling of an `Optional[str] = Field(None)` model field:
both an absent field and an explicit null parse to `None`. -/
def parse_optional_str : JsonField → Option String
  | .absent => none
  | .null => none
  | .str s => some s

/-- The `NoteUpdateRequest` pydantic model: optional new title and text. -/
structure NoteUpdateRequest where
  title : Option String
  text : Option String
deriving DecidableEq, Repr

/-- Parsing a JSON update body through the `NoteUpdateRequest` model. -/
def parse_update_request (title_field text_field : JsonField) : NoteUpdateRequest :=
  { title := parse_optional_str title_field
    text := parse_optional_str text_field }

/-- The `NoteCreateRequest` pydantic model: optional title and text. -/
structure NoteCreateRequest where
  title : Option String
  text : Option String
deriving DecidableEq, Repr

/-- The body of the `{message, status}` response of the delete handler. -/
structure DeleteResponse where
  message : String
  status : String
deriving DecidableEq, Repr

/-- The `{notes, count}` response of the search and list handlers. -/
structure SearchResponse where
  notes : List NoteRecord
  count : Nat
deriving DecidableEq, Repr

/-- The 404 detail string of `rest_api.py`. -/
def not_found_detail (note_id : String) : String :=
  "Note with ID " ++ note_id ++ " not found"

/-- The 403 detail string of `rest_api.py`. -/
def forbidden_detail (note_id : String) : String :=
  "Note with ID " ++ note_id ++
    " cannot be modified (missing keep-mcp label and UNSAFE_MODE is not enabled)"

/-- Body of `get_note` for an established session: fetch and serialize,
404 if absent.  No gate, no mutation, no synchronize call. -/
def get_note_core (s : KeepState) (note_id : String) :
    Except PyExc NoteRecord × KeepState :=
  match keep_get s note_id with
  | none => (.error (.httpException 404 (not_found_detail note_id)), s)
  | some note => (.ok (serialize_note note), s)

/-- The field assignments of `update_note`: a supplied (non-`None`) title or
text overwrites, an absent one leaves the attribute untouched. -/
def apply_update (req : NoteUpdateRequest) (note : Note) : Note :=
  let n1 := match req.title with
    | some t => { note with title := some t }
    | none => note
  match req.text with
  | some t => { n1 with text := some t }
  | none => n1

/-- Body of `update_note` for an established session: fetch (404 if absent),
gate (403 if rejected), apply the supplied fields, sync, return the
serialized note. -/
def update_note_core (operator_override : Bool) (s : KeepState)
    (note_id : String) (req : NoteUpdateRequest) :
    Except PyExc NoteRecord × KeepState :=
  match keep_get s note_id with
  | none => (.error (.httpException 404 (not_found_detail note_id)), s)
  | some note =>
    if can_modify_note operator_override note then
      let note2 := apply_update req note
      (.ok (serialize_note note2), do_sync (set_note s note_id note2))
    else
      (.error (.httpException 403 (forbidden_detail note_id)), s)

/-- Body of `delete_note` for an established session: fetch (404 if absent),
gate (403 if rejected), mark the note for deletion (`note.delete()` is the
external library's soft delete, setting the trashed flag), sync, return the
success marker. -/
def delete_note_core (operator_override : Bool) (s : KeepState)
    (note_id : String) : Except PyExc DeleteResponse × KeepState :=
  match keep_get s note_id with
  | none => (.error (.httpException 404 (not_found_detail note_id)), s)
  | some note =>
    if can_modify_note operator_override note then
      let note2 := { note with trashed := true }
      (.ok { message := "Note " ++ note_id ++ " marked for deletion"
             status := "success" },
       do_sync (set_note s note_id note2))
    else
      (.error (.httpException 403 (forbidden_detail note_id)), s)

/-- The `label = keep.findLabel(...); if not label: label =
keep.createLabel(...)` sequence of `create_note`: look the label up by name
and create it only if it is absent. -/
def get_or_create_label (s : KeepState) (name : String) : Label × KeepState :=
  match find_label s name with
  | some l => (l, s)
  | none => (⟨name⟩, { s with accountLabels := s.accountLabels ++ [⟨name⟩] })

/-- Body of `create_note` for an established session: create the note in the
cache (`keep.createNote`, with `new_id` the identifier the external service
assigns), look up the `keep-mcp` label and create it only if absent, attach
it to the new note, sync, return the serialized note. -/
def create_note_core (s : KeepState) (new_id : String)
    (req : NoteCreateRequest) : Except PyExc NoteRecord × KeepState :=
  let new_note : Note :=
    { id := new_id, title := req.title, text := req.text, pinned := false
      color := none, archived := false, trashed := false, labels := [] }
  let s1 : KeepState := { s with notes := s.notes ++ [new_note] }
  let pair : Label × KeepState := get_or_create_label s1 "keep-mcp"
  let new_note2 := { new_note with labels := new_note.labels ++ [pair.1] }
  (.ok (serialize_note new_note2), do_sync (set_note pair.2 new_id new_note2))

/-- `keep.find(query=query, archived=False, trashed=False)`: the session's
search capability, restricted to notes that are neither archived nor
trashed.  The free-text matcher itself lives in the external library and is
abstracted as `matcher`. -/
def keep_find (matcher : String → Note → Bool) (s : KeepState)
    (query : String) : List Note :=
  s.notes.filter (fun n => matcher query n && !n.archived && !n.trashed)

/-- Body of `search_notes` for an established session: serialize the found
notes and return them with their count. -/
def search_notes_core (matcher : String → Note → Bool) (s : KeepState)
    (query : String) : Except PyExc SearchResponse × KeepState :=
  let notes_data := (keep_find matcher s query).map serialize_note
  (.ok { notes := notes_data, count := notes_data.length }, s)

/-- `list_notes`: implemented as a call to `search_notes` with the empty
query. -/
def list_notes_core (matcher : String → Note → Bool) (s : KeepState) :
    Except PyExc SearchResponse × KeepState :=
  search_notes_core matcher s ""

/-- A handler of `rest_api.py` as a whole: `get_client()` may fail (its
exception is not an `HTTPException`), otherwise the body runs on the session
state; the result passes through the handler's exception boundary. -/
def with_client {α : Type} (client : Except String KeepState)
    (body : KeepState → Except PyExc α × KeepState) :
    Except PyExc α × Except String KeepState :=
  match client with
  | .error e => (run_handler (.error (.other e)), .error e)
  | .ok s =>
    let r := body s
    (run_handler r.1, .ok r.2)

/-- The full `get_note` handler. -/
def get_note (client : Except String KeepState) (note_id : String) :
    Except PyExc NoteRecord × Except String KeepState :=
  with_client client (fun s => get_note_core s note_id)

/-- The full `update_note` handler. -/
def update_note (operator_override : Bool) (client : Except String KeepState)
    (note_id : String) (req : NoteUpdateRequest) :
    Except PyExc NoteRecord × Except String KeepState :=
  with_client client (fun s => update_note_core operator_override s note_id req)

/-- The full `delete_note` handler. -/
def delete_note (operator_override : Bool) (client : Except String KeepState)
    (note_id : String) : Except PyExc DeleteResponse × Except String KeepState :=
  with_client client (fun s => delete_note_core operator_override s note_id)

/-- The `HealthResponse` body of the REST surface. -/
structure HealthResponse where
  status : String
  timestamp : String
  service : String
  google_keep_connected : Bool
  version : String
deriving DecidableEq, Repr

/-- The `health_check` handler of `rest_api.py` (serving both `/health` and
`/api/health`): tries `get_client()`, reports healthy or unhealthy, and
returns the body with FastAPI's default status code 200 in both cases (the
handler raises no `HTTPException` and sets no status code). -/
def rest_health_check (client : Except String KeepState) (now : String) :
    HealthResponse × Nat :=
  match client with
  | .ok _ =>
    ({ status := "healthy", timestamp := now, service := "google-keep-rest-api"
       google_keep_connected := true, version := "1.0.0" }, 200)
  | .error _ =>
    ({ status := "unhealthy", timestamp := now, service := "google-keep-rest-api"
       google_keep_connected := false, version := "1.0.0" }, 200)

/-- The JSON body of the standalone MCP surface's health route. -/
structure StandaloneHealthResponse where
  status : String
  service : String
  google_keep_connected : Bool
  error : Option String
deriving DecidableEq, Repr

/-- The `health_check` custom route of `standalone_http.py`: healthy with
status 200, or unhealthy with the error message and status 503. -/
def standalone_health_check (client : Except String KeepState) :
    StandaloneHealthResponse × Nat :=
  match client with
  | .ok _ =>
    ({ status := "healthy", service := "google-keep-mcp"
       google_keep_connected := true, error := none }, 200)
  | .error e =>
    ({ status := "unhealthy", service := "google-keep-mcp"
       google_keep_connected := false, error := some e }, 503)

/-- The `api_health_check` custom route of `standalone_http.py`, delegating
to `health_check`. -/
def api_health_check (client : Except String KeepState) :
    StandaloneHealthResponse × Nat :=
  standalone_health_check client


/-! ## Sample data used by the witness theorems -/

/-- A sample note carrying the ownership-marker label. -/
def ownedNote : Note :=
  { id := "n1", title := some "t1", text := some "x1", pinned := false
    color := none, archived := false, trashed := false, labels := [⟨"keep-mcp"⟩] }

/-- A sample note without the ownership-marker label. -/
def plainNote : Note :=
  { id := "n2", title := some "t2", text := none, pinned := true
    color := some "RED", archived := false, trashed := false, labels := [⟨"todo"⟩] }

/-- A sample session state holding the two sample notes. -/
def sampleState : KeepState :=
  { notes := [ownedNote, plainNote]
    accountLabels := [⟨"keep-mcp"⟩, ⟨"todo"⟩]
    syncCount := 0 }

/-! ## Theorems -/

/-- C1: the Modification Gate `can_modify_note` returns true iff the
Operator Override flag is enabled or the note's label set contains a label
whose name is the reserved ownership marker `keep-mcp`.  It is a plain Lean
function of its arguments, hence a pure predicate with no side effects. -/
theorem C1_can_modify_iff (operator_override : Bool) (note : Note) :
    can_modify_note operator_override note = true ↔
      operator_override = true ∨ ∃ l ∈ note.labels, l.name = "keep-mcp" := by
  simp [can_modify_note, List.any_eq_true]

/-- C5: for every query (the empty string included), `search_notes` returns
exactly the serialized records of the session's matching, non-archived,
non-trashed notes, in the session's order (the filtered sublist keeps the
session's order), with a count equal to that list's length, leaving the
session state untouched; and `list_notes` returns exactly the result of
`search_notes` on the empty query. -/
theorem C5_search_list (matcher : String → Note → Bool) (s : KeepState)
    (query : String) :
    search_notes_core matcher s query =
      (Except.ok
        { notes := (s.notes.filter
            (fun n => matcher query n && !n.archived && !n.trashed)).map serialize_note
          count := (s.notes.filter
            (fun n => matcher query n && !n.archived && !n.trashed)).length }, s) ∧
    list_notes_core matcher s = search_notes_core matcher s "" := by
  exact ⟨by simp [search_notes_core, keep_find], rfl⟩

/-- C6: the Note Serializer is a total pure function (it never raises and
cannot mutate its argument), and for every note — notes with null title,
null text, null color and an empty label set included — it produces a record
with exactly the fields id, title, text, pinned, color and labels, each
taken unchanged from the note, the labels as an ordered list of name
records. -/
theorem C6_serialize_fields (note : Note) :
    (serialize_note note).id = note.id ∧
    (serialize_note note).title = note.title ∧
    (serialize_note note).text = note.text ∧
    (serialize_note note).pinned = note.pinned ∧
    (serialize_note note).color = note.color ∧
    (serialize_note note).labels =
      note.labels.map (fun l => ({ name := l.name } : LabelRecord)) :=
  ⟨rfl, rfl, rfl, rfl, rfl, rfl⟩

/-- C10: reads are not gated: for every note present in the session cache,
`get_note` returns its serialization — whatever the note's labels, and with
no Operator Override parameter in sight, since `get_note_core` never
consults the Modification Gate — and returns the state unchanged, so no
mutation and no synchronize call happens on the read path. -/
theorem C10_get_unrestricted (s : KeepState) (note_id : String) (note : Note)
    (hget : keep_get s note_id = some note) :
    get_note_core s note_id = (Except.ok (serialize_note note), s) ∧
    get_note (Except.ok s) note_id =
      (Except.ok (serialize_note note), Except.ok s) := by
  constructor
  · simp [get_note_core, hget]
  · simp [get_note, with_client, get_note_core, hget, run_handler]

/-- Witness for C10: fetching the sample note without the ownership label
succeeds and leaves the state unchanged. -/
theorem C10_witness :
    get_note_core sampleState "n2" = (Except.ok (serialize_note plainNote), sampleState) :=
  (C10_get_unrestricted sampleState "n2" plainNote (by decide)).1

/-- C2: for update and delete alike, an identifier absent from the session
cache yields a 404 with the handler's not-found detail, and a present note
rejected by the Modification Gate yields a 403 with the handler's forbidden
detail; in both error cases the returned state is exactly the input state,
so the rejection happens after the fetch and before any mutation or
synchronize call (the note list and the sync counter are unchanged). -/
theorem C2_update_delete_errors (operator_override : Bool) (s : KeepState)
    (note_id : String) (req : NoteUpdateRequest) :
    (keep_get s note_id = none →
      update_note_core operator_override s note_id req =
        (Except.error (.httpException 404 (not_found_detail note_id)), s) ∧
      delete_note_core operator_override s note_id =
        (Except.error (.httpException 404 (not_found_detail note_id)), s)) ∧
    (∀ note, keep_get s note_id = some note →
      can_modify_note operator_override note = false →
      update_note_core operator_override s note_id req =
        (Except.error (.httpException 403 (forbidden_detail note_id)), s) ∧
      delete_note_core operator_override s note_id =
        (Except.error (.httpException 403 (forbidden_detail note_id)), s)) := by
  constructor
  · intro h
    exact ⟨by simp [update_note_core, h], by simp [delete_note_core, h]⟩
  · intro note hget hmod
    exact ⟨by simp [update_note_core, hget, hmod],
           by simp [delete_note_core, hget, hmod]⟩

/-- Witness for C2: updating the unlabelled sample note with the override
disabled is rejected with a 403 and the state is unchanged; updating an
unknown identifier is rejected with a 404 and the state is unchanged. -/
theorem C2_witness :
    update_note_core false sampleState "n2" { title := none, text := none } =
      (Except.error (.httpException 403 (forbidden_detail "n2")), sampleState) ∧
    delete_note_core false sampleState "zzz" =
      (Except.error (.httpException 404 (not_found_detail "zzz")), sampleState) := by
  constructor
  · exact ((C2_update_delete_errors false sampleState "n2"
      { title := none, text := none }).2 plainNote (by decide) (by decide)).1
  · exact ((C2_update_delete_errors false sampleState "zzz"
      { title := none, text := none }).1 (by decide)).2

/-- If the cache's note ids are distinct, writing back the very note that
`keep.get` returned (unchanged) leaves the note list unchanged. -/
lemma set_note_self (s : KeepState) (note_id : String) (note : Note)
    (hnodup : (s.notes.map Note.id).Nodup)
    (hget : keep_get s note_id = some note) :
    (set_note s note_id note).notes = s.notes := by
  have hmem : note ∈ s.notes := List.mem_of_find?_eq_some hget
  have hid : note.id = note_id := by
    have h := List.find?_some hget
    simpa using h
  show s.notes.map (fun m => if m.id = note_id then note else m) = s.notes
  conv_rhs => rw [← List.map_id s.notes]
  apply List.map_congr_left
  intro m hm
  by_cases h : m.id = note_id
  · simp only [h, if_pos rfl, id]
    exact (List.inj_on_of_nodup_map hnodup hm hmem (h.trans hid.symm)).symm
  · simp [h]

/-- C3: partial-update semantics: for an existing, permitted note, the
update handler stores `apply_update req note`, issues one synchronize call,
and returns 200 with the serialized updated note; a supplied field
overwrites, an absent field leaves the attribute untouched, every other
attribute is untouched; a request supplying neither title nor text leaves
the note itself fully unchanged (and, when the cache's ids are distinct, the
whole note list unchanged), yet still increments the synchronize counter and
returns the serialized note. -/
theorem C3_partial_update (operator_override : Bool) (s : KeepState)
    (note_id : String) (req : NoteUpdateRequest) (note : Note)
    (hget : keep_get s note_id = some note)
    (hmod : can_modify_note operator_override note = true) :
    update_note_core operator_override s note_id req =
      (Except.ok (serialize_note (apply_update req note)),
        do_sync (set_note s note_id (apply_update req note))) ∧
    (apply_update req note).title = req.title.or note.title ∧
    (apply_update req note).text = req.text.or note.text ∧
    (apply_update req note).id = note.id ∧
    (apply_update req note).pinned = note.pinned ∧
    (apply_update req note).color = note.color ∧
    (apply_update req note).archived = note.archived ∧
    (apply_update req note).trashed = note.trashed ∧
    (apply_update req note).labels = note.labels ∧
    apply_update { title := none, text := none } note = note ∧
    (do_sync (set_note s note_id (apply_update req note))).syncCount =
      s.syncCount + 1 ∧
    ((s.notes.map Note.id).Nodup → (set_note s note_id note).notes = s.notes) := by
  refine ⟨by simp [update_note_core, hget, hmod], ?_, ?_, ?_, ?_, ?_, ?_, ?_, ?_,
    rfl, rfl, fun hnodup => set_note_self s note_id note hnodup hget⟩
  all_goals
    rcases req with ⟨tf, xf⟩
    rcases tf with _ | t <;> rcases xf with _ | x <;>
      simp [apply_update, Option.or]

/-- Witness for C3: updating the labelled sample note with only a new text
keeps its title, stores the updated note, and bumps the sync counter. -/
theorem C3_witness :
    update_note_core false sampleState "n1" { title := none, text := some "new" } =
      (Except.ok (serialize_note
          (apply_update { title := none, text := some "new" } ownedNote)),
        do_sync (set_note sampleState "n1"
          (apply_update { title := none, text := some "new" } ownedNote))) ∧
    (apply_update { title := none, text := some "new" } ownedNote).title =
      ownedNote.title := by
  have h := C3_partial_update false sampleState "n1"
    { title := none, text := some "new" } ownedNote (by decide) (by decide)
  exact ⟨h.1, (h.2.1).trans rfl⟩

/-- C9: a request field set to an explicit JSON null parses exactly as an
omitted field (pydantic maps both to `None`), so the update handler treats
them identically for both title and text; consequently the applied update
can never clear an existing title or text back to null. -/
theorem C9_null_as_absent (operator_override : Bool) (s : KeepState)
    (note_id : String) (tf xf : JsonField) (note : Note) :
    update_note_core operator_override s note_id
        (parse_update_request JsonField.null xf) =
      update_note_core operator_override s note_id
        (parse_update_request JsonField.absent xf) ∧
    update_note_core operator_override s note_id
        (parse_update_request tf JsonField.null) =
      update_note_core operator_override s note_id
        (parse_update_request tf JsonField.absent) ∧
    (note.title ≠ none →
      (apply_update (parse_update_request tf xf) note).title ≠ none) ∧
    (note.text ≠ none →
      (apply_update (parse_update_request tf xf) note).text ≠ none) := by
  refine ⟨rfl, rfl, ?_, ?_⟩ <;>
    · intro h
      rcases tf with _ | _ | t <;> rcases xf with _ | _ | x <;>
        simp_all [apply_update, parse_update_request, parse_optional_str]

/-- Witness for C9: on the sample state, an update carrying an explicit null
title and a string text equals the update omitting the title, and it does
not clear the sample note's title. -/
theorem C9_witness :
    update_note_core false sampleState "n1"
        (parse_update_request JsonField.null (JsonField.str "v")) =
      update_note_core false sampleState "n1"
        (parse_update_request JsonField.absent (JsonField.str "v")) ∧
    (apply_update (parse_update_request JsonField.null (JsonField.str "v"))
        ownedNote).title ≠ none := by
  have h := C9_null_as_absent false sampleState "n1" JsonField.null
    (JsonField.str "v") ownedNote
  exact ⟨h.1, h.2.2.1 (by decide)⟩

/-- A label found by name is exactly the label bearing that name. -/
lemma find_label_some_eq (s : KeepState) (name : String) (l : Label)
    (h : find_label s name = some l) : l = ⟨name⟩ := by
  have h2 := List.find?_some h
  cases l with
  | mk ln => exact congrArg Label.mk (by simpa using h2)

/-- If no label with the given name is found, the account holds none. -/
lemma find_label_none_filter (s : KeepState) (name : String)
    (h : find_label s name = none) :
    s.accountLabels.filter (fun l => l.name = name) = [] := by
  rw [find_label, List.find?_eq_none] at h
  rw [List.filter_eq_nil_iff]
  intro a ha
  simpa using h a ha

/-- If a label with the given name is found, the account holds at least
one. -/
lemma find_label_some_filter_pos (s : KeepState) (name : String) (l : Label)
    (h : find_label s name = some l) :
    1 ≤ (s.accountLabels.filter (fun lb => lb.name = name)).length := by
  have hmem : l ∈ s.accountLabels := List.mem_of_find?_eq_some h
  have hp := List.find?_some h
  have hf : l ∈ s.accountLabels.filter (fun lb => lb.name = name) :=
    List.mem_filter.mpr ⟨hmem, hp⟩
  exact List.length_pos.mpr (List.ne_nil_of_mem hf)

/-- `get_or_create_label` always hands back the label with the requested
name. -/
lemma get_or_create_label_fst (s : KeepState) (name : String) :
    (get_or_create_label s name).1 = ⟨name⟩ := by
  rcases hfl : find_label s name with _ | l
  · simp [get_or_create_label, hfl]
  · simp [get_or_create_label, hfl]
    exact find_label_some_eq s name l hfl

/-- `get_or_create_label` touches neither the note cache nor the sync
counter. -/
lemma get_or_create_label_frame (s : KeepState) (name : String) :
    (get_or_create_label s name).2.notes = s.notes ∧
    (get_or_create_label s name).2.syncCount = s.syncCount := by
  rcases hfl : find_label s name with _ | l <;>
    simp [get_or_create_label, hfl]

/-- `get_or_create_label` is idempotent on the account's label multiset:
afterwards the account holds the label exactly once if it held none, and an
unchanged number of copies otherwise. -/
lemma get_or_create_label_count (s : KeepState) (name : String) :
    ((get_or_create_label s name).2.accountLabels.filter
        (fun l => l.name = name)).length =
      max 1 ((s.accountLabels.filter (fun l => l.name = name)).length) := by
  rcases hfl : find_label s name with _ | l
  · have h0 := find_label_none_filter s name hfl
    simp [get_or_create_label, hfl, List.filter_append, h0]
  · have h1 := find_label_some_filter_pos s name l hfl
    simp only [get_or_create_label, hfl]
    exact (Nat.max_eq_right h1).symm

/-- Replacing the occurrences of a fresh id in an extended cache and looking
that id up finds exactly the replacement. -/
lemma find?_map_append_fresh (l : List Note) (new_id : String) (nn n2 : Note)
    (hfresh : l.find? (fun n => n.id = new_id) = none)
    (hnn : nn.id = new_id) (hn2 : n2.id = new_id) :
    ((l ++ [nn]).map (fun m => if m.id = new_id then n2 else m)).find?
        (fun n => n.id = new_id) = some n2 := by
  induction l with
  | nil => simp [hnn, hn2]
  | cons a l ih =>
    by_cases h : a.id = new_id
    · rw [List.find?_cons_of_pos _ (by simpa using h)] at hfresh
      exact absurd hfresh (by simp)
    · have hfresh2 : l.find? (fun n => n.id = new_id) = none := by
        rwa [List.find?_cons_of_neg _ (by simpa using h)] at hfresh
      simp only [List.cons_append, List.map_cons]
      rw [List.find?_cons_of_neg _ (by simp [h])]
      exact ih hfresh2

/-- C4: every create request returns the serialized note carrying the
ownership-marker label record; for a fresh identifier the note stored in the
cache afterwards carries the ownership-marker label; label creation is
idempotent (the label is looked up by name before being created, so the
number of keep-mcp labels in the account afterwards is one if there was
none and unchanged otherwise — creating two notes cannot produce two); and
exactly one synchronize call is issued before the response is returned. -/
theorem C4_create_note (s : KeepState) (new_id : String)
    (req : NoteCreateRequest) :
    (create_note_core s new_id req).1 =
      Except.ok { id := new_id, title := req.title, text := req.text
                  pinned := false, color := none
                  labels := [{ name := "keep-mcp" }] } ∧
    (keep_get s new_id = none →
      keep_get (create_note_core s new_id req).2 new_id =
        some { id := new_id, title := req.title, text := req.text
               pinned := false, color := none, archived := false
               trashed := false, labels := [⟨"keep-mcp"⟩] }) ∧
    ((create_note_core s new_id req).2.accountLabels.filter
        (fun l => l.name = "keep-mcp")).length =
      max 1 ((s.accountLabels.filter (fun l => l.name = "keep-mcp")).length) ∧
    (create_note_core s new_id req).2.syncCount = s.syncCount + 1 := by
  refine ⟨?_, ?_, ?_, ?_⟩
  · simp [create_note_core, serialize_note, get_or_create_label_fst]
  · intro hfresh
    simp only [create_note_core, keep_get, do_sync, set_note,
      get_or_create_label_fst]
    rw [(get_or_create_label_frame _ "keep-mcp").1]
    exact find?_map_append_fresh s.notes new_id _ _ hfresh rfl rfl
  · simpa [create_note_core, do_sync, set_note]
      using get_or_create_label_count { s with notes := s.notes ++
        [{ id := new_id, title := req.title, text := req.text, pinned := false
           color := none, archived := false, trashed := false, labels := [] }]}
        "keep-mcp"
  · simp only [create_note_core, do_sync, set_note]
    rw [(get_or_create_label_frame _ "keep-mcp").2]

/-- Witness for C4: creating a note with a fresh identifier on the sample
state stores it with the ownership-marker label attached. -/
theorem C4_witness :
    keep_get (create_note_core sampleState "n9"
        { title := some "a", text := none }).2 "n9" =
      some { id := "n9", title := some "a", text := none, pinned := false
             color := none, archived := false, trashed := false
             labels := [⟨"keep-mcp"⟩] } :=
  (C4_create_note sampleState "n9" { title := some "a", text := none }).2.1
    (by decide)

/-- The get body only ever raises `HTTPException`s, which the boundary
passes through unchanged. -/
lemma run_handler_get (s : KeepState) (note_id : String) :
    run_handler (get_note_core s note_id).1 = (get_note_core s note_id).1 := by
  unfold get_note_core
  cases keep_get s note_id <;> simp [run_handler]

/-- The update body only ever raises `HTTPException`s, which the boundary
passes through unchanged. -/
lemma run_handler_update (operator_override : Bool) (s : KeepState)
    (note_id : String) (req : NoteUpdateRequest) :
    run_handler (update_note_core operator_override s note_id req).1 =
      (update_note_core operator_override s note_id req).1 := by
  unfold update_note_core
  cases hk : keep_get s note_id with
  | none => simp [run_handler]
  | some note =>
    by_cases hm : can_modify_note operator_override note <;>
      simp [run_handler, hm]

/-- The delete body only ever raises `HTTPException`s, which the boundary
passes through unchanged. -/
lemma run_handler_delete (operator_override : Bool) (s : KeepState)
    (note_id : String) :
    run_handler (delete_note_core operator_override s note_id).1 =
      (delete_note_core operator_override s note_id).1 := by
  unfold delete_note_core
  cases hk : keep_get s note_id with
  | none => simp [run_handler]
  | some note =>
    by_cases hm : can_modify_note operator_override note <;>
      simp [run_handler, hm]

/-- C7: at the handler boundary of get, update and delete, a failing client
session (not an `HTTPException`) is translated to a 500 carrying the
original message, never swallowed; with an established session the handler's
response is exactly the body's response, so the body's 404 NotFound and 403
Forbidden `HTTPException`s reach the caller verbatim with their original
status code and detail, never recast as a generic error. -/
theorem C7_error_propagation (operator_override : Bool)
    (client : Except String KeepState) (note_id : String)
    (req : NoteUpdateRequest) :
    (∀ e, client = Except.error e →
      (get_note client note_id).1 = Except.error (.httpException 500 e) ∧
      (update_note operator_override client note_id req).1 =
        Except.error (.httpException 500 e) ∧
      (delete_note operator_override client note_id).1 =
        Except.error (.httpException 500 e)) ∧
    (∀ s, client = Except.ok s →
      (get_note client note_id).1 = (get_note_core s note_id).1 ∧
      (update_note operator_override client note_id req).1 =
        (update_note_core operator_override s note_id req).1 ∧
      (delete_note operator_override client note_id).1 =
        (delete_note_core operator_override s note_id).1) := by
  constructor
  · rintro e rfl
    exact ⟨rfl, rfl, rfl⟩
  · rintro s rfl
    exact ⟨run_handler_get s note_id,
      run_handler_update operator_override s note_id req,
      run_handler_delete operator_override s note_id⟩

/-- Witness for C7: a failing client turns into a 500 with the original
message, and on the sample state the update handler's 403 reaches the caller
verbatim. -/
theorem C7_witness :
    (get_note (Except.error "auth failed") "n1").1 =
      Except.error (PyExc.httpException 500 "auth failed") ∧
    (update_note false (Except.ok sampleState) "n2"
        { title := none, text := none }).1 =
      (update_note_core false sampleState "n2"
        { title := none, text := none }).1 := by
  constructor
  · exact ((C7_error_propagation false (Except.error "auth failed") "n1"
      { title := none, text := none }).1 "auth failed" rfl).1
  · exact ((C7_error_propagation false (Except.ok sampleState) "n2"
      { title := none, text := none }).2 sampleState rfl).2.1

/-- C8 counterexample: when the client session cannot be established, the
REST surface's health check handler answers with HTTP status 200, not 503 —
refuting the claim that both surfaces surface the failure as 503. -/
theorem C8_counterexample :
    (rest_health_check (Except.error "authentication failed")
        "2026-01-01T00:00:00").2 = 200 ∧
    (rest_health_check (Except.error "authentication failed")
        "2026-01-01T00:00:00").2 ≠ 503 :=
  ⟨rfl, by decide⟩

/-- C8 amended: when the client session cannot be established, every health
route reports status unhealthy with `google_keep_connected` false and never
raises (each handler is a total function); the standalone MCP surface's
routes surface the failure as HTTP 503, while the REST surface's handler
returns its unhealthy body with HTTP 200. -/
theorem C8_health_on_failure (e now : String) :
    rest_health_check (Except.error e) now =
      ({ status := "unhealthy", timestamp := now
         service := "google-keep-rest-api"
         google_keep_connected := false, version := "1.0.0" }, 200) ∧
    standalone_health_check (Except.error e) =
      ({ status := "unhealthy", service := "google-keep-mcp"
         google_keep_connected := false, error := some e }, 503) ∧
    api_health_check (Except.error e) =
      ({ status := "unhealthy", service := "google-keep-mcp"
         google_keep_connected := false, error := some e }, 503) :=
  ⟨rfl, rfl, rfl⟩

end KeepMcp
